import Mathlib

/-!
Shallow embedding of the repository's two source files,
src/user_service.h and src/user_service.cpp.

The C functions are modelled as pure Lean functions that return, besides
their C return value, a list of observable events: writes into fixed-size
stack buffers (with the capacity of the destination and the number of bytes
stored, NUL terminator included), memcpy calls, shell invocations via
system(), printf output, null-pointer dereferences and reads of
uninitialized variables.  C strings (the characters before the NUL
terminator) are modelled as Lean strings; null pointers as Option.none;
the heap as a list of allocation cells indexed by pointer id.
-/

/-- Observable events of the embedded C functions. -/
inductive Event where
  | stackWrite (buf : String) (capacity : Nat) (bytesWritten : Nat)
  | memcpyCall (dest : String) (capacity : Nat) (src : List Int) (count : Nat)
  | systemCall (cmd : String)
  | printed (s : String)
  | nullDeref (expr : String)
  | uninitRead (var : String)
  deriving DecidableEq, Repr

/-- An event writes past the end of its destination buffer when the number of
bytes stored exceeds the destination's capacity. -/
def Event.overflows : Event → Prop
  | Event.stackWrite _ cap n => cap < n
  | Event.memcpyCall _ cap _ n => cap < n
  | _ => False

/-- The Database type is referenced by the header (`Database* db`) but never
defined anywhere in the repository; only the (possibly dangling) pointer is
stored, and no member function reads it. -/
structure Database

/-- A heap allocation: its size in bytes, the C string currently stored in it,
and whether it is still live (not yet passed to delete[]). -/
structure HeapCell where
  size : Nat
  contents : String
  live : Bool
  deriving DecidableEq, Repr

/-- The heap: a list of allocation cells, a pointer being an index into it. -/
abbrev Heap := List HeapCell

/-- The UserService class of src/user_service.h: a `const char*` member
adminPassword (nullptr modelled as none) and an undefined-type pointer db. -/
structure UserService where
  adminPassword : Option String
  db : Option Database

/-- A default-constructed UserService: adminPassword has the in-class
initializer "SuperSecret123!" (src/user_service.h line 22); db has no
initializer, so its garbage value is a parameter. -/
def defaultUserService (dbGarbage : Option Database) : UserService :=
  { adminPassword := some "SuperSecret123!", db := dbGarbage }

/-- Result of `sprintf(command, "auth_check %s", username)`. -/
def sprintfAuthCheck (username : String) : String := "auth_check " ++ username

/-- Result of `sprintf(token, "token_%d", userId)`. -/
def sprintfToken (userId : Int) : String := "token_" ++ toString userId

/-- Number of bytes strcpy or sprintf stores for a C string: its characters
plus the NUL terminator. -/
def cstrBytes (s : String) : Nat := s.length + 1

/-- UserService::authenticateUser (src/user_service.cpp lines 8-22):
`char buffer[32]; strcpy(buffer, username);` then
`char command[256]; sprintf(command, "auth_check %s", username);
system(command);` then
`if (strcmp(password, "admin123") == 0) printf("Admin access granted\n");`.
The member state is returned unchanged. -/
def UserService.authenticateUser (s : UserService) (username password : String) :
    UserService × List Event :=
  (s,
    [Event.stackWrite "buffer" 32 (cstrBytes username),
     Event.stackWrite "command" 256 (cstrBytes (sprintfAuthCheck username)),
     Event.systemCall (sprintfAuthCheck username)]
    ++ (if password = "admin123" then [Event.printed "Admin access granted\n"] else []))

/-- UserService::getUserToken (src/user_service.cpp lines 25-30):
`char* token = new char[64];` allocates a fresh cell at the end of the heap;
`sprintf(token, "token_%d", userId);` fills it; `delete[] token;` marks it
dead; `return token;` returns the pointer to the now-freed cell. -/
def UserService.getUserToken (s : UserService) (userId : Int) (h : Heap) :
    UserService × Heap × Nat :=
  let token : Nat := h.length
  let h1 : Heap := h ++ [{ size := 64, contents := "", live := true }]
  let h2 : Heap := h1.set token { size := 64, contents := sprintfToken userId, live := true }
  let h3 : Heap := h2.set token { size := 64, contents := sprintfToken userId, live := false }
  (s, h3, token)

/-- Return channel of a non-void C++ function: either an explicit return
value, or control falling off the end with no return statement
(undefined behavior). -/
inductive RetVal (α : Type) where
  | value : α → RetVal α
  | missingReturn : RetVal α
  deriving DecidableEq, Repr

/-- UserService::getSecretKey (src/user_service.cpp lines 33-39):
`if (adminPassword != nullptr) return std::string(adminPassword);` and then
the closing brace — no return statement on the nullptr path. -/
def UserService.getSecretKey (s : UserService) : UserService × RetVal String :=
  match s.adminPassword with
  | some p => (s, RetVal.value p)
  | none => (s, RetVal.missingReturn)

/-- Implicit conversion of a C int to the 64-bit size_t at a memcpy call. -/
def intToSizeT (n : Int) : Nat := (n % (2 : Int) ^ 64).toNat

/-- processUserData (src/user_service.cpp lines 42-52):
`char output[100]; memcpy(output, data, length);` then
`int status; if (status == 0) printf("Success\n");` where status is read
without ever being assigned, so the value tested is a garbage parameter. -/
def processUserData (data : List Int) (length : Int) (statusGarbage : Int) :
    List Event :=
  [Event.memcpyCall "output" 100 data (intToSizeT length),
   Event.uninitRead "status"]
  ++ (if statusGarbage = 0 then [Event.printed "Success\n"] else [])

/-- The ServiceConfig type is undefined in the repository; only its port
field is read (src/user_service.cpp line 60), so it is modelled as that one
field. -/
structure ServiceConfig where
  port : Int
  deriving DecidableEq, Repr

/-- connectToService (src/user_service.cpp lines 55-61):
`if (config == nullptr) printf("Config is null\n");` with no early return,
then `printf("Port: %d\n", config->port);`, which dereferences config. -/
def connectToService (config : Option ServiceConfig) : List Event :=
  (if config.isNone then [Event.printed "Config is null\n"] else [])
  ++ (match config with
      | none => [Event.nullDeref "config->port"]
      | some c => [Event.printed ("Port: " ++ toString c.port ++ "\n")])

/-- buildQuery (src/user_service.h lines 27-29). -/
def buildQuery (userInput : String) : String :=
  "SELECT * FROM users WHERE id = " ++ userInput

/-- The shell commands a trace passes to system(), in order. -/
def systemCalls (es : List Event) : List String :=
  es.filterMap fun e => match e with
    | Event.systemCall c => some c
    | _ => none

/-- A call to one of the three member functions of UserService. -/
inductive MemberCall where
  | authenticate (username password : String)
  | getToken (userId : Int) (h : Heap)
  | secretKey

/-- Effect of one member call on the UserService state. -/
def applyCall (s : UserService) : MemberCall → UserService
  | MemberCall.authenticate u p => (s.authenticateUser u p).1
  | MemberCall.getToken uid h => (s.getUserToken uid h).1
  | MemberCall.secretKey => s.getSecretKey.1

/-- Effect of a sequence of member calls on the UserService state. -/
def applyCalls (s : UserService) (cs : List MemberCall) : UserService :=
  cs.foldl applyCall s

/-- Setting the element just past a list, after appending it, rewrites it. -/
theorem set_length_concat {α : Type} (l : List α) (a b : α) :
    (l ++ [a]).set l.length b = l ++ [b] := by
  induction l with
  | nil => rfl
  | cons x xs ih =>
      show x :: ((xs ++ [a]).set xs.length b) = x :: (xs ++ [b])
      rw [ih]

/-- Reading a concatenated list at the length of its left part. -/
theorem getElem_length_concat {α : Type} (l : List α) (a : α) :
    (l ++ [a])[l.length]? = some a := by
  simp

/-- C1: for any username whose NUL-terminated length is 32 or more,
authenticateUser performs a strcpy that stores username.length + 1 bytes
into the 32-byte stack buffer, writing past the end of the buffer. -/
theorem authenticateUser_buffer_overflow (s : UserService) (username password : String)
    (h : 32 ≤ username.length) :
    Event.stackWrite "buffer" 32 (cstrBytes username) ∈
      (s.authenticateUser username password).2 ∧
    (Event.stackWrite "buffer" 32 (cstrBytes username)).overflows := by
  constructor
  · simp [UserService.authenticateUser]
  · simp only [Event.overflows, cstrBytes]
    omega

/-- Witness for C1 at a concrete 32-character username. -/
theorem authenticateUser_buffer_overflow_witness :
    32 ≤ ("aaaaaaaaaaaaaaaaaaaaaaaaaaaaaaaa" : String).length ∧
    (Event.stackWrite "buffer" 32 (cstrBytes "aaaaaaaaaaaaaaaaaaaaaaaaaaaaaaaa") ∈
      ((defaultUserService none).authenticateUser "aaaaaaaaaaaaaaaaaaaaaaaaaaaaaaaa" "pw").2 ∧
     (Event.stackWrite "buffer" 32 (cstrBytes "aaaaaaaaaaaaaaaaaaaaaaaaaaaaaaaa")).overflows) :=
  ⟨by decide,
   authenticateUser_buffer_overflow (defaultUserService none)
     "aaaaaaaaaaaaaaaaaaaaaaaaaaaaaaaa" "pw" (by decide)⟩

/-- C2: for every username and password, the trace of authenticateUser
invokes system() exactly once, with exactly the string "auth_check "
followed verbatim by the username. -/
theorem authenticateUser_system_command (s : UserService) (username password : String) :
    systemCalls (s.authenticateUser username password).2 = ["auth_check " ++ username] := by
  by_cases hp : password = "admin123" <;>
    simp [UserService.authenticateUser, systemCalls, sprintfAuthCheck, hp]

/-- C3: getUserToken allocates a fresh 64-byte cell, and the pointer it
returns addresses that cell, which at return holds "token_<userId>" and is
no longer live (it was passed to delete[] before the return). -/
theorem getUserToken_use_after_free (s : UserService) (userId : Int) (h : Heap) :
    (s.getUserToken userId h).1 = s ∧
    (s.getUserToken userId h).2.2 = h.length ∧
    ((s.getUserToken userId h).2.1)[(s.getUserToken userId h).2.2]? =
      some { size := 64, contents := "token_" ++ toString userId, live := false } := by
  refine ⟨rfl, rfl, ?_⟩
  show (((h ++ [_]).set h.length _).set h.length _)[h.length]? = _
  rw [set_length_concat, set_length_concat, getElem_length_concat]
  rfl

/-- C4: buildQuery returns exactly the SQL prefix concatenated with the raw
user input, and the characters after the 31-character prefix are the input
verbatim (no escaping or validation). -/
theorem buildQuery_injection (userInput : String) :
    buildQuery userInput = "SELECT * FROM users WHERE id = " ++ userInput ∧
    (buildQuery userInput).data.drop 31 = userInput.data := by
  refine ⟨rfl, ?_⟩
  have hlen : ("SELECT * FROM users WHERE id = " : String).data.length = 31 := rfl
  show ("SELECT * FROM users WHERE id = " ++ userInput).data.drop 31 = userInput.data
  rw [String.data_append, ← hlen, List.drop_left]

/-- C5: called with a null config, connectToService prints "Config is null"
and then, having not returned early, dereferences the null pointer at
config->port. -/
theorem connectToService_null_deref :
    connectToService none =
      [Event.printed "Config is null\n", Event.nullDeref "config->port"] := rfl

/-- C6: getSecretKey returns the string adminPassword points to when it is
non-null, and on the null path control falls off the end of the function
with no return statement. -/
theorem getSecretKey_missing_return (s : UserService) :
    (∀ p, s.adminPassword = some p → s.getSecretKey = (s, RetVal.value p)) ∧
    (s.adminPassword = none → s.getSecretKey = (s, RetVal.missingReturn)) := by
  constructor
  · intro p hp
    simp [UserService.getSecretKey, hp]
  · intro hp
    simp [UserService.getSecretKey, hp]

/-- Witness for C6 at concrete services with non-null and null
adminPassword. -/
theorem getSecretKey_missing_return_witness :
    (({ adminPassword := some "k", db := none } : UserService).adminPassword = some "k" ∧
     ({ adminPassword := some "k", db := none } : UserService).getSecretKey =
       ({ adminPassword := some "k", db := none }, RetVal.value "k")) ∧
    (({ adminPassword := none, db := none } : UserService).adminPassword = none ∧
     ({ adminPassword := none, db := none } : UserService).getSecretKey =
       ({ adminPassword := none, db := none }, RetVal.missingReturn)) :=
  ⟨⟨rfl, (getSecretKey_missing_return { adminPassword := some "k", db := none }).1 "k" rfl⟩,
   ⟨rfl, (getSecretKey_missing_return { adminPassword := none, db := none }).2 rfl⟩⟩

/-- C7: processUserData reads the never-assigned local status on every call,
and the branch it takes depends on the garbage value of status, not on the
function's inputs: garbage 0 prints "Success", garbage 1 does not. -/
theorem processUserData_uninitialized_status (data : List Int) (length : Int) :
    (∀ g : Int, Event.uninitRead "status" ∈ processUserData data length g) ∧
    Event.printed "Success\n" ∈ processUserData data length 0 ∧
    Event.printed "Success\n" ∉ processUserData data length 1 := by
  refine ⟨fun g => ?_, ?_, ?_⟩ <;> simp [processUserData]

/-- C8: processUserData memcpys exactly length bytes from data into the
100-byte stack buffer with no bound check, so every int length greater than
100 writes past the end of the buffer. -/
theorem processUserData_memcpy_overflow (data : List Int) (length : Int) (g : Int)
    (h100 : 100 < length) (hint : length < 2 ^ 31) :
    Event.memcpyCall "output" 100 data (intToSizeT length) ∈
      processUserData data length g ∧
    intToSizeT length = length.toNat ∧
    (Event.memcpyCall "output" 100 data (intToSizeT length)).overflows := by
  refine ⟨by simp [processUserData], ?_, ?_⟩
  · simp only [intToSizeT]
    have h64 : (2 : Int) ^ 64 = 18446744073709551616 := by norm_num
    rw [h64]
    omega
  · simp only [Event.overflows, intToSizeT]
    have h64 : (2 : Int) ^ 64 = 18446744073709551616 := by norm_num
    rw [h64]
    omega

/-- Witness for C8 at length 200. -/
theorem processUserData_memcpy_overflow_witness :
    (100 < (200 : Int) ∧ (200 : Int) < 2 ^ 31) ∧
    (Event.memcpyCall "output" 100 [] (intToSizeT 200) ∈ processUserData [] 200 0 ∧
     intToSizeT 200 = (200 : Int).toNat ∧
     (Event.memcpyCall "output" 100 [] (intToSizeT 200)).overflows) :=
  ⟨by constructor <;> decide,
   processUserData_memcpy_overflow [] 200 0 (by decide) (by decide)⟩

/-- C9: authenticateUser prints "Admin access granted" exactly when the
password equals the hardcoded "admin123"; the username does not enter the
decision. -/
theorem authenticateUser_admin_grant (s : UserService) (username password : String) :
    Event.printed "Admin access granted\n" ∈ (s.authenticateUser username password).2 ↔
      password = "admin123" := by
  by_cases hp : password = "admin123" <;> simp [UserService.authenticateUser, hp]

/-- C10: starting from a default-constructed UserService, every sequence of
member calls leaves adminPassword equal to "SuperSecret123!", so the null
branch of getSecretKey is unreachable and it returns "SuperSecret123!". -/
theorem default_adminPassword_stable (dbg : Option Database) (cs : List MemberCall) :
    (applyCalls (defaultUserService dbg) cs).adminPassword = some "SuperSecret123!" ∧
    (applyCalls (defaultUserService dbg) cs).getSecretKey.2 =
      RetVal.value "SuperSecret123!" := by
  have hstep : ∀ (s : UserService) (c : MemberCall), applyCall s c = s := by
    intro s c
    cases c with
    | authenticate u p => rfl
    | getToken uid h => rfl
    | secretKey =>
        show s.getSecretKey.1 = s
        cases hA : s.adminPassword <;> simp [UserService.getSecretKey, hA]
  have hfold : ∀ (l : List MemberCall) (s : UserService), applyCalls s l = s := by
    intro l
    induction l with
    | nil => intro s; rfl
    | cons c t ih =>
        intro s
        have hc : applyCalls s (c :: t) = applyCalls (applyCall s c) t := rfl
        rw [hc, hstep, ih]
  rw [hfold]
  exact ⟨rfl, rfl⟩
